import Mathlib

/-!
Verification of the trading-bridge core (tv-ibkr webhook bot).

Shallow embedding of the Python sources:
  * `src/market_hours.py`   — `MarketHours.get_current_session`,
    `TradingSessionManager.{can_trade_now, get_order_type, get_trading_decision}`
  * `src/ibkr_client.py`    — `IBKRClient.get_market_price`
  * `src/trading_engine.py` — `TradingEngine.{_validate_sequential_action,
    _execute_trade, _convert_action_to_ibkr, _track_pending_order,
    _update_position, check_and_resubmit_orders, _resubmit_order, process_alert}`
  * `src/order_manager.py`  — `OrderMonitor.{record_order_placed,
    record_order_filled, _update_avg_fill_time}`
  * `src/webhook.py`        — the `/webhook` route and `AlertParser.parse_alert`

Machine conventions: wall-clock instants already converted to the exchange
timezone are modelled as a weekday number (Python `datetime.weekday()`,
Monday = 0) plus minutes since midnight; datetimes used only for arithmetic
are modelled as integers (minutes); Python floats are modelled as rationals;
fallible Python code (exceptions) returns `Option`/`Except`.
-/

/-! ## Market hours (`src/market_hours.py`) -/

/-- `MarketSession` enum from `market_hours.py`. -/
inductive MarketSession where
  | pre_market
  | market
  | post_market
  | closed
deriving DecidableEq

/-- The four configured boundary times of `MarketHours`, as minutes since
midnight in the exchange timezone (the Python code stores `datetime.time`
values parsed from HH:MM strings; minutes-since-midnight is an
order-isomorphic encoding). -/
structure MarketHoursCfg where
  pre_market_start : Nat
  market_open : Nat
  market_close : Nat
  post_market_end : Nat
deriving DecidableEq

/-- `MarketHours.get_current_session`: the instant is given, already
converted to the exchange timezone, as `weekday` (Monday = 0) and `t`
(minutes since midnight).  Weekend check first, then the three chained
half-open interval checks, else CLOSED. -/
def getCurrentSession (mh : MarketHoursCfg) (weekday : Nat) (t : Nat) : MarketSession :=
  if 5 ≤ weekday then
    MarketSession.closed
  else if mh.pre_market_start ≤ t ∧ t < mh.market_open then
    MarketSession.pre_market
  else if mh.market_open ≤ t ∧ t < mh.market_close then
    MarketSession.market
  else if mh.market_close ≤ t ∧ t < mh.post_market_end then
    MarketSession.post_market
  else
    MarketSession.closed

/-- The two flags held by `TradingSessionManager`. -/
structure SessionMgrCfg where
  enable_pre_market : Bool
  enable_post_market : Bool
deriving DecidableEq

/-- `TradingSessionManager.can_trade_now`. -/
def canTradeNow (mh : MarketHoursCfg) (cfg : SessionMgrCfg) (weekday t : Nat) : Bool :=
  match getCurrentSession mh weekday t with
  | MarketSession.market => true
  | MarketSession.pre_market => cfg.enable_pre_market
  | MarketSession.post_market => cfg.enable_post_market
  | MarketSession.closed => false

/-- `TradingSessionManager.get_order_type`: MKT during regular hours, LMT
for pre/post market, and LMT also in the CLOSED fall-through branch. -/
def getOrderType (mh : MarketHoursCfg) (weekday t : Nat) : String :=
  match getCurrentSession mh weekday t with
  | MarketSession.market => "MKT"
  | MarketSession.pre_market => "LMT"
  | MarketSession.post_market => "LMT"
  | MarketSession.closed => "LMT"

/-- `TradingSessionManager.get_trading_decision`, restricted to the two
fields the engine consumes: `can_trade` and `recommended_order_type`
(`order_type = self.get_order_type(dt) if can_trade else None`). -/
def getTradingDecision (mh : MarketHoursCfg) (cfg : SessionMgrCfg) (weekday t : Nat) :
    Bool × Option String :=
  let can_trade := canTradeNow mh cfg weekday t
  (can_trade, if can_trade then some (getOrderType mh weekday t) else none)

/-! ## Quote retrieval (`src/ibkr_client.py`) -/

/-- The price fields of an `ib_insync` ticker as read by
`IBKRClient.get_market_price`.  `none` stands for an absent/NaN value
(Python `None`, or NaN — both fail the `x and x > 0` test). -/
structure Ticker where
  marketPrice : Option ℚ
  bid : Option ℚ
  ask : Option ℚ
  last : Option ℚ
deriving DecidableEq

/-- Python's `x and x > 0` test on an optional price field: truthy and
strictly positive. -/
def posQ : Option ℚ → Bool
  | some v => decide (0 < v)
  | none => false

/-- `IBKRClient.get_market_price`: consolidated market price when positive,
else bid/ask midpoint when both positive, else last trade when positive,
else no price. -/
def getMarketPrice (t : Ticker) : Option ℚ :=
  if posQ t.marketPrice then t.marketPrice
  else if posQ t.bid && posQ t.ask then some ((t.bid.getD 0 + t.ask.getD 0) / 2)
  else if posQ t.last then t.last
  else none

/-! ## Python string primitives

Character-list implementations of the `str` methods the sources use
(`upper`, `lower`, `strip`); for the ASCII tickers and action words
involved these agree with Python. -/

/-- Python `str.upper()` (ASCII). -/
def pyUpper (s : String) : String := ⟨s.data.map Char.toUpper⟩

/-- Python `str.lower()` (ASCII). -/
def pyLower (s : String) : String := ⟨s.data.map Char.toLower⟩

/-- Python `str.strip()`: drop whitespace from both ends. -/
def pyStrip (s : String) : String :=
  ⟨((s.data.dropWhile Char.isWhitespace).reverse.dropWhile Char.isWhitespace).reverse⟩

/-! ## Limit-price computation (`src/trading_engine.py`) -/

/-- Python's `round` to an integer: round half to even (banker's rounding),
on exact rationals. -/
def roundHalfEven (x : ℚ) : ℤ :=
  if x - (⌊x⌋ : ℚ) < 1/2 then ⌊x⌋
  else if 1/2 < x - (⌊x⌋ : ℚ) then ⌊x⌋ + 1
  else if ⌊x⌋ % 2 = 0 then ⌊x⌋ else ⌊x⌋ + 1

/-- Python's `round(x, 2)`: banker's rounding to two decimal places. -/
def round2 (x : ℚ) : ℚ := (roundHalfEven (x * 100) : ℚ) / 100

/-- The 10 bps limit-price buffer (`buffer = 0.001` in
`TradingEngine._execute_trade` and `TradingEngine._resubmit_order`). -/
def buffer : ℚ := 1/1000

/-- Limit price computed by `TradingEngine._execute_trade` (lines 215-222):
`quote × (1 + buffer)` for a BUY-side broker action, `quote × (1 − buffer)`
otherwise, rounded to two decimals. -/
def executeLimitPrice (ibkr_action : String) (market_price : ℚ) : ℚ :=
  if ibkr_action = "BUY" then round2 (market_price * (1 + buffer))
  else round2 (market_price * (1 - buffer))

/-- Limit price computed by `TradingEngine._resubmit_order` (lines 387-396);
textually the same computation as in `_execute_trade`, embedded separately
because the source duplicates it. -/
def resubmitLimitPrice (ibkr_action : String) (market_price : ℚ) : ℚ :=
  if ibkr_action = "BUY" then round2 (market_price * (1 + buffer))
  else round2 (market_price * (1 - buffer))

/-! ## Trading engine data model (`src/trading_engine.py`) -/

/-- `PositionState` enum. -/
inductive PositionState where
  | flat
  | long
  | short
deriving DecidableEq

/-- `PositionInfo` dataclass (`last_updated` as an integer timestamp). -/
structure PositionInfo where
  symbol : String
  state : PositionState
  quantity : Nat
  avg_price : ℚ
  last_updated : Int
deriving DecidableEq

/-- `PositionInfo.__post_init__`: a zero quantity forces the FLAT state. -/
def mkPositionInfo (symbol : String) (state : PositionState) (quantity : Nat)
    (avg_price : ℚ) (last_updated : Int) : PositionInfo :=
  { symbol := symbol
    state := if quantity = 0 then PositionState.flat else state
    quantity := quantity
    avg_price := avg_price
    last_updated := last_updated }

/-- `PendingOrder` dataclass (`submitted_time`, `last_resubmission` as
integer minutes). -/
structure PendingOrder where
  trade_id : String
  symbol : String
  action : String
  quantity : Nat
  original_price : Option ℚ
  submitted_time : Int
  resubmission_count : Nat
  last_resubmission : Option Int
deriving DecidableEq

/-- The configuration the engine reads in `TradingEngine.__init__`. -/
structure EngineConfig where
  default_quantity : Nat
  max_position_size : Nat
  limit_order_timeout_minutes : Int
  max_resubmissions : Nat
deriving DecidableEq

/-- The broker environment behind one engine step: result of
`qualifyContractsAsync` for each symbol, the market price the ticker
yields, the order id `placeOrder` assigns (`none` = placement failed), and
the signed position plus average cost reported per symbol. -/
structure Broker where
  qualify : String → Bool
  price : Option ℚ
  placeId : Option Nat
  position : String → Int
  avgCost : String → ℚ

/-- One broker interaction, recorded so theorems can speak about which
calls an execution path issued. -/
inductive BrokerCall where
  | qualifyContract (symbol : String)
  | getPrice
  | place (ibkr_action : String) (quantity : Nat) (order_type : Option String) (limit : Option ℚ)
deriving DecidableEq

/-- Mutable engine state: the `positions` and `pending_orders` dicts,
modelled as association lists keyed by symbol resp. trade id. -/
structure EngineState where
  positions : List (String × PositionInfo)
  pending_orders : List (String × PendingOrder)
deriving DecidableEq

/-- Dict write `d[k] = v`. -/
def dictInsert {α : Type} (l : List (String × α)) (k : String) (v : α) :
    List (String × α) :=
  (l.filter (fun kv => !(kv.1 == k))) ++ [(k, v)]

/-- Dict read `d.get(k)`. -/
def dictGet {α : Type} (l : List (String × α)) (k : String) : Option α :=
  (l.find? (fun kv => kv.1 == k)).map Prod.snd

/-- `TradingEngine._validate_sequential_action`: the transition table
keyed on the current position state; the requested action is upper-cased
first. -/
def validTransitions : PositionState → List String
  | PositionState.flat => ["BUY", "SHORT"]
  | PositionState.long => ["SELL"]
  | PositionState.short => ["COVER"]

def validateSequentialAction (position : PositionInfo) (action : String) : Bool :=
  (validTransitions position.state).contains (pyUpper action)

/-- `TradingEngine._convert_action_to_ibkr`. -/
def convertActionToIbkr (action : String) : String :=
  if pyUpper action = "BUY" then "BUY"
  else if pyUpper action = "SELL" then "SELL"
  else if pyUpper action = "SHORT" then "SELL"
  else if pyUpper action = "COVER" then "BUY"
  else pyUpper action

/-- `TradingEngine._track_pending_order`: the record registered after a
successful LMT placement. -/
def trackPendingOrder (orderId : Nat) (symbol action : String) (quantity : Nat)
    (limit_price : ℚ) (now : Int) : PendingOrder :=
  { trade_id := toString orderId
    symbol := symbol
    action := action
    quantity := quantity
    original_price := some limit_price
    submitted_time := now
    resubmission_count := 0
    last_resubmission := none }

/-- `TradingEngine._update_position`: the `PositionInfo` stored for
`symbol` after refreshing from the broker (`get_position` returns no
record exactly when the signed quantity is zero). -/
def updatePosition (b : Broker) (symbol : String) (now : Int) : PositionInfo :=
  let pos := b.position symbol
  if pos ≠ 0 then
    mkPositionInfo symbol
      (if 0 < pos then PositionState.long else PositionState.short)
      pos.natAbs (b.avgCost symbol) now
  else
    mkPositionInfo symbol PositionState.flat 0 0 now

/-- `TradingEngine._execute_trade`: qualify the symbol, convert the action,
check the quantity cap, pick the order type from the session decision,
fetch a quote and compute the buffered limit for LMT, place, and register a
pending record on a successful LMT placement.  Returns the success flag,
the updated engine state, and the broker calls issued, in order. -/
def executeTrade (b : Broker) (cfg : EngineConfig) (now : Int) (st : EngineState)
    (symbol action : String) (quantity : Nat) (order_type : Option String) :
    Bool × EngineState × List BrokerCall :=
  if b.qualify symbol = false then
    (false, st, [BrokerCall.qualifyContract symbol])
  else
    let ibkr_action := convertActionToIbkr action
    if cfg.max_position_size < quantity then
      (false, st, [BrokerCall.qualifyContract symbol])
    else if order_type = some "LMT" then
      match b.price with
      | none => (false, st, [BrokerCall.qualifyContract symbol, BrokerCall.getPrice])
      | some market_price =>
        let limit_price := executeLimitPrice ibkr_action market_price
        match b.placeId with
        | some oid =>
          let pend := dictInsert st.pending_orders (toString oid)
            (trackPendingOrder oid symbol action quantity limit_price now)
          (true, { st with pending_orders := pend },
           [BrokerCall.qualifyContract symbol, BrokerCall.getPrice,
            BrokerCall.place ibkr_action quantity order_type (some limit_price)])
        | none =>
          (false, st,
           [BrokerCall.qualifyContract symbol, BrokerCall.getPrice,
            BrokerCall.place ibkr_action quantity order_type (some limit_price)])
    else
      match b.placeId with
      | some _ =>
        (true, st,
         [BrokerCall.qualifyContract symbol,
          BrokerCall.place ibkr_action quantity order_type none])
      | none =>
        (false, st,
         [BrokerCall.qualifyContract symbol,
          BrokerCall.place ibkr_action quantity order_type none])

/-- `TradingEngine.process_alert` after alert-field extraction: bail out if
the session decision forbids trading, refresh the position from the broker,
validate the sequential action, then execute.  `decision` is the
`(can_trade, recommended_order_type)` pair from the session manager. -/
def processAlert (b : Broker) (cfg : EngineConfig) (decision : Bool × Option String)
    (now : Int) (st : EngineState) (symbol action : String) (quantity : Nat) :
    Bool × EngineState × List BrokerCall :=
  if decision.1 = false then
    (false, st, [])
  else
    let st1 : EngineState :=
      { st with positions := dictInsert st.positions symbol (updatePosition b symbol now) }
    let current := (dictGet st1.positions symbol).getD
      (mkPositionInfo symbol PositionState.flat 0 0 now)
    if validateSequentialAction current action = false then
      (false, st1, [])
    else
      executeTrade b cfg now st1 symbol action quantity decision.2

/-! ## Pending-order sweep (`src/trading_engine.py`) -/

/-- The filter of `TradingEngine.check_and_resubmit_orders`: an order is
collected for resubmission when the time since the last resubmission (or
since submission, if never resubmitted) has reached the timeout AND its
resubmission count is still below the cap. -/
def eligibleForResubmission (max_resubmissions : Nat) (timeout_minutes : Int)
    (now : Int) (p : PendingOrder) : Bool :=
  let time_since_submission := now - p.submitted_time
  let time_since_last :=
    match p.last_resubmission with
    | some t => now - t
    | none => time_since_submission
  decide (timeout_minutes ≤ time_since_last) && decide (p.resubmission_count < max_resubmissions)

/-- `TradingEngine._resubmit_order`, record-level: re-qualify, re-quote,
cancel the old broker order (no effect on the record), recompute the limit
with the buffer, place; on success the record gets the new trade id, an
incremented resubmission count and `last_resubmission = now`.  The second
component is the limit price of the newly placed order (`none` = nothing
was placed: contract, quote, or placement failed, and the record is left
unchanged). -/
def resubmitOrderRecord (b : Broker) (now : Int) (p : PendingOrder) :
    PendingOrder × Option ℚ :=
  if b.qualify p.symbol = false then (p, none)
  else
    match b.price with
    | none => (p, none)
    | some market_price =>
      let ibkr_action := convertActionToIbkr p.action
      let new_limit_price := resubmitLimitPrice ibkr_action market_price
      match b.placeId with
      | some nid =>
        ({ p with
             trade_id := toString nid
             resubmission_count := p.resubmission_count + 1
             last_resubmission := some now },
         some new_limit_price)
      | none => (p, none)

/-- `TradingEngine.check_and_resubmit_orders`: collect the eligible records,
then resubmit each; a successful resubmission deletes the old key and
inserts the record under the new trade id. -/
def checkAndResubmitOrders (b : Broker) (cfg : EngineConfig) (now : Int)
    (pending : List (String × PendingOrder)) : List (String × PendingOrder) :=
  let orders_to_resubmit := (pending.map Prod.snd).filter
    (eligibleForResubmission cfg.max_resubmissions cfg.limit_order_timeout_minutes now)
  orders_to_resubmit.foldl
    (fun acc p =>
      match resubmitOrderRecord b now p with
      | (p2, some _) => dictInsert (acc.filter (fun kv => !(kv.1 == p.trade_id))) p2.trade_id p2
      | (_, none) => acc)
    pending

/-- The per-intent lifecycle of one limit order: it starts as the record
registered by `_track_pending_order` right after the initial placement
(one broker order exists), and each sweep may run `_resubmit_order` on it
when `check_and_resubmit_orders` finds it eligible.  The natural number
counts the broker orders placed so far for this originating intent. -/
inductive IntentReach (cfg : EngineConfig) : PendingOrder → Nat → Prop where
  | track : ∀ (orderId : Nat) (symbol action : String) (quantity : Nat)
      (limit_price : ℚ) (now : Int),
      IntentReach cfg (trackPendingOrder orderId symbol action quantity limit_price now) 1
  | resubmitPlaced : ∀ (p : PendingOrder) (n : Nat) (b : Broker) (now : Int),
      IntentReach cfg p n →
      eligibleForResubmission cfg.max_resubmissions cfg.limit_order_timeout_minutes now p = true →
      (resubmitOrderRecord b now p).2.isSome = true →
      IntentReach cfg (resubmitOrderRecord b now p).1 (n + 1)
  | resubmitFailed : ∀ (p : PendingOrder) (n : Nat) (b : Broker) (now : Int),
      IntentReach cfg p n →
      eligibleForResubmission cfg.max_resubmissions cfg.limit_order_timeout_minutes now p = true →
      (resubmitOrderRecord b now p).2.isSome = false →
      IntentReach cfg (resubmitOrderRecord b now p).1 n

/-! ## Order monitor (`src/order_manager.py`) -/

/-- One entry of `OrderMonitor.order_history` (the fields
`record_order_placed` writes; timestamps as integer seconds). -/
structure OrderRecord where
  order_id : String
  symbol : String
  action : String
  quantity : Nat
  order_type : String
  price : Option ℚ
  placed_time : Option Int
  status : String
  fill_time : Option Int
  fill_price : Option ℚ
  resubmission_count : Nat
deriving DecidableEq

/-- The counters of `OrderMonitor.order_stats` used by the fill path. -/
structure OrderStats where
  total_orders : Nat
  filled_orders : Nat
  avg_fill_time_seconds : ℚ
deriving DecidableEq

/-- `OrderMonitor` state. -/
structure OrderMonitor where
  order_stats : OrderStats
  order_history : List OrderRecord
deriving DecidableEq

/-- The fresh monitor built by `OrderMonitor.__init__`. -/
def emptyMonitor : OrderMonitor :=
  { order_stats := { total_orders := 0, filled_orders := 0, avg_fill_time_seconds := 0 }
    order_history := [] }

/-- `OrderMonitor.max_history_size`. -/
def max_history_size : Nat := 1000

/-- `OrderMonitor._add_to_history`: append, then keep only the most recent
`max_history_size` records. -/
def addToHistory (h : List OrderRecord) (r : OrderRecord) : List OrderRecord :=
  let h2 := h ++ [r]
  if max_history_size < h2.length then h2.drop (h2.length - max_history_size) else h2

/-- `OrderMonitor.record_order_placed`. -/
def recordOrderPlaced (m : OrderMonitor) (order_id symbol action : String)
    (quantity : Nat) (order_type : String) (price : Option ℚ) (now : Int) :
    OrderMonitor :=
  let record : OrderRecord :=
    { order_id := order_id
      symbol := symbol
      action := action
      quantity := quantity
      order_type := order_type
      price := price
      placed_time := some now
      status := "placed"
      fill_time := none
      fill_price := none
      resubmission_count := 0 }
  { order_stats := { m.order_stats with total_orders := m.order_stats.total_orders + 1 }
    order_history := addToHistory m.order_history record }

/-- `OrderMonitor._update_avg_fill_time`: reads the `filled_orders` counter
as it stands and divides by it.  A zero counter is Python's
`ZeroDivisionError`, modelled as `none`. -/
def updateAvgFillTime (stats : OrderStats) (fill_duration_seconds : ℚ) :
    Option OrderStats :=
  let filled_count := stats.filled_orders
  let current_avg := stats.avg_fill_time_seconds
  if filled_count = 0 then none
  else some { stats with avg_fill_time_seconds :=
    ((current_avg * ((filled_count : ℚ) - 1)) + fill_duration_seconds) / (filled_count : ℚ) }

/-- In-place update of the first record (in the given traversal order)
matching the order id, as the `for ... break` loop in
`record_order_filled` does over the reversed history. -/
def replaceFirst (p : OrderRecord → Bool) (f : OrderRecord → OrderRecord) :
    List OrderRecord → List OrderRecord
  | [] => []
  | r :: rs => if p r then f r :: rs else r :: replaceFirst p f rs

/-- `OrderMonitor.record_order_filled`: walk the history newest-first, mark
the first record with the given id as filled, and — when that record has a
`placed_time` — update the running average fill time with the *current*
`filled_orders` counter before the counter is incremented.  `none` models
the `ZeroDivisionError` escaping (in which case the increment after the
loop is never reached). -/
def recordOrderFilled (m : OrderMonitor) (order_id : String) (fill_price : ℚ)
    (fill_time : Int) : Option OrderMonitor :=
  let rev := m.order_history.reverse
  match rev.find? (fun r => r.order_id == order_id) with
  | none =>
    some { m with order_stats :=
      { m.order_stats with filled_orders := m.order_stats.filled_orders + 1 } }
  | some r =>
    let rev2 := replaceFirst (fun r0 => r0.order_id == order_id)
      (fun r0 => { r0 with
        status := "filled", fill_time := some fill_time, fill_price := some fill_price }) rev
    let hist := rev2.reverse
    match r.placed_time with
    | none =>
      some { order_history := hist
             order_stats :=
               { m.order_stats with filled_orders := m.order_stats.filled_orders + 1 } }
    | some placed =>
      match updateAvgFillTime m.order_stats ((fill_time - placed : Int) : ℚ) with
      | none => none
      | some stats2 =>
        some { order_history := hist
               order_stats := { stats2 with filled_orders := stats2.filled_orders + 1 } }

/-! ## Webhook intake (`src/webhook.py`) -/

/-- The raw alert JSON object, restricted to the keys `parse_alert` reads.
For `quantity` and `price` the inner `Option` is the outcome of the
`int(...)` / `float(...)` conversion (`some none` = present but not
convertible, which raises). -/
structure AlertData where
  action : Option String
  symbol : Option String
  quantity : Option (Option Int)
  price : Option (Option ℚ)
  message : Option String
deriving DecidableEq

/-- The output record of `AlertParser.parse_alert` (the never-raising
timestamp normalization and the `raw_data` passthrough are elided). -/
structure ParsedAlert where
  action : String
  symbol : String
  quantity : Int
  price : Option ℚ
  message : String
deriving DecidableEq

/-- `AlertParser.parse_alert`: validates `action` against the four known
values, requires a non-empty `symbol`, a positive convertible `quantity`,
and a convertible `price` when one is present; any failure raises
`ValueError`, modelled as `Except.error` with the message. -/
def parseAlert (d : AlertData) : Except String ParsedAlert :=
  let action := pyStrip (pyLower (d.action.getD ""))
  if (["buy", "sell", "short", "cover"].contains action) = false then
    Except.error "Invalid or missing action"
  else
    let symbol := pyStrip (pyUpper (d.symbol.getD ""))
    if symbol = "" then Except.error "Missing symbol"
    else
      match d.quantity with
      | none => Except.error "Missing quantity"
      | some none => Except.error "Invalid quantity"
      | some (some q) =>
        if q ≤ 0 then Except.error "Invalid quantity"
        else
          match d.price with
          | some none => Except.error "Invalid price"
          | some (some pr) =>
            Except.ok { action := action, symbol := symbol, quantity := q,
                        price := some pr, message := (d.message.getD "") }
          | none =>
            Except.ok { action := action, symbol := symbol, quantity := q,
                        price := none, message := (d.message.getD "") }

/-- An incoming HTTP request to the `/webhook` route.  `data` is the result
of `request.get_json()`; `data_truthy` is the Python truthiness of that
object (`{}` parses but is falsy); `x_signature` is the `X-Signature`
header. -/
structure WebhookRequest where
  remote_addr : String
  is_json : Bool
  data : Option AlertData
  data_truthy : Bool
  x_signature : Option String

/-- `WebhookServer._verify_signature`, with the HMAC comparison abstracted
by the oracle `hmacOk` (true iff the hex digest after the `sha256=` marker
matches the payload's HMAC). -/
def verifySignature (hmacOk : String → Bool) (signature : Option String) : Bool :=
  match signature with
  | none => false
  | some s =>
    if s = "" then false
    else if (s.startsWith "sha256=") = false then false
    else hmacOk (s.drop 7)

/-- The `/webhook` route handler, returning the HTTP status code: IP
whitelist (403), JSON content type (400), empty body (400), signature when
a secret is configured (403), then the alert callback — 200 when it
returns, 500 when it raises (`cb d = none`), 500 when no callback is
configured. -/
def webhookRoute (secret : String) (allowed_ips : List String)
    (hmacOk : String → Bool) (alert_cb : Option (AlertData → Option Unit))
    (req : WebhookRequest) : Nat :=
  if (!allowed_ips.isEmpty) && (!(allowed_ips.contains req.remote_addr)) then 403
  else if !req.is_json then 400
  else
    match req.data with
    | none => 400
    | some d =>
      if !req.data_truthy then 400
      else if (!(secret == "")) && (!(verifySignature hmacOk req.x_signature)) then 403
      else
        match alert_cb with
        | some cb => match cb d with
          | some _ => 200
          | none => 500
        | none => 500

/-- A consumer of the route that invokes `AlertParser.parse_alert` on the
posted object and lets its `ValueError` propagate (the composition the
repository wires: the route's callback parses before acting). -/
def parseAlertCallback (d : AlertData) : Option Unit :=
  match parseAlert d with
  | Except.ok _ => some ()
  | Except.error _ => none

/-! ## Helper lemmas -/

theorem dictGet_dictInsert {α : Type} (l : List (String × α)) (k : String) (v : α) :
    dictGet (dictInsert l k v) k = some v := by
  unfold dictGet dictInsert
  rw [List.find?_append]
  have h1 : (l.filter (fun kv => !(kv.1 == k))).find? (fun kv => kv.1 == k) = none := by
    rw [List.find?_eq_none]
    intro x hx
    have hmem := List.of_mem_filter hx
    simp only [Bool.not_eq_true'] at hmem
    simp [hmem]
  rw [h1]
  simp [List.find?]

/-! ## Concrete evaluation environments used by witnesses -/

/-- A benign broker: every symbol qualifies, a quote of 150 is available,
placements succeed with order id 1, and no position is held anywhere. -/
def wBroker : Broker :=
  { qualify := fun _ => true
    price := some 150
    placeId := some 1
    position := fun _ => 0
    avgCost := fun _ => 0 }

/-- The default engine configuration of `TradingEngine.__init__`. -/
def wCfg : EngineConfig :=
  { default_quantity := 100
    max_position_size := 1000
    limit_order_timeout_minutes := 5
    max_resubmissions := 3 }

/-- An engine state with no positions and no pending orders. -/
def wState : EngineState := { positions := [], pending_orders := [] }

/-! ## C1 — sequential action validator -/

/-- Claim C1: the validator accepts exactly the transitions of the table
(FLAT accepts BUY and SHORT and rejects SELL and COVER; LONG accepts only
SELL; SHORT accepts only COVER), and a validator rejection is surfaced to
the caller as a failed outcome while no broker order activity happens: the
engine state is changed only by the position refresh that precedes
validation, the pending-order set is untouched, and no broker call is
issued. -/
theorem C1_sequential_validator :
    (∀ (p : PositionInfo),
      (p.state = PositionState.flat →
        validateSequentialAction p "BUY" = true ∧
        validateSequentialAction p "SHORT" = true ∧
        validateSequentialAction p "SELL" = false ∧
        validateSequentialAction p "COVER" = false) ∧
      (p.state = PositionState.long →
        validateSequentialAction p "SELL" = true ∧
        validateSequentialAction p "BUY" = false ∧
        validateSequentialAction p "SHORT" = false ∧
        validateSequentialAction p "COVER" = false) ∧
      (p.state = PositionState.short →
        validateSequentialAction p "COVER" = true ∧
        validateSequentialAction p "BUY" = false ∧
        validateSequentialAction p "SELL" = false ∧
        validateSequentialAction p "SHORT" = false)) ∧
    (∀ (b : Broker) (cfg : EngineConfig) (ot : Option String) (now : Int)
       (st : EngineState) (symbol action : String) (quantity : Nat),
      validateSequentialAction (updatePosition b symbol now) action = false →
      processAlert b cfg (true, ot) now st symbol action quantity =
        (false,
         { st with positions := dictInsert st.positions symbol (updatePosition b symbol now) },
         [])) := by
  constructor
  · intro p
    refine ⟨fun h => ?_, fun h => ?_, fun h => ?_⟩ <;>
      · simp only [validateSequentialAction, h]
        decide
  · intro b cfg ot now st symbol action quantity hval
    unfold processAlert
    simp only [dictGet_dictInsert, Option.getD_some, Bool.true_eq_false, if_false,
      reduceIte, hval]

/-- Witness for C1: a SELL signal on a flat NVDA position is rejected with
no broker call and no change beyond the position refresh. -/
theorem C1_sequential_validator_witness :
    processAlert wBroker wCfg (true, some "MKT") 0 wState "NVDA" "SELL" 100 =
      (false,
       { wState with positions := dictInsert wState.positions "NVDA" (updatePosition wBroker "NVDA" 0) },
       []) :=
  C1_sequential_validator.2 wBroker wCfg (some "MKT") 0 wState "NVDA" "SELL" 100 (by decide)

/-! ## C3 — quantity cap versus symbol qualification order -/

/-- Claim C3 counterexample: with the default configuration an oversized
quantity (2000 > 1000) still causes a qualify broker call — the source
qualifies the symbol first and checks the quantity cap only afterwards, so
the claimed "no qualify call for an oversized quantity" is false. -/
theorem C3_quantity_first_counterexample :
    wCfg.max_position_size < 2000 ∧
    BrokerCall.qualifyContract "AAPL" ∈
      (executeTrade wBroker wCfg 0 wState "AAPL" "BUY" 2000 (some "MKT")).2.2 := by
  decide

/-- Claim C3 as amended: the oversized-quantity rejection happens after
symbol qualification but before any quote request or order placement: when
the symbol qualifies and the quantity exceeds the cap, the execution fails
and the only broker call issued is the qualify call. -/
theorem C3_quantity_cap_after_qualify (b : Broker) (cfg : EngineConfig) (now : Int)
    (st : EngineState) (symbol action : String) (quantity : Nat) (ot : Option String)
    (hq : b.qualify symbol = true) (hgt : cfg.max_position_size < quantity) :
    executeTrade b cfg now st symbol action quantity ot =
      (false, st, [BrokerCall.qualifyContract symbol]) := by
  unfold executeTrade
  simp [hq, hgt]

/-- Witness for the amended C3. -/
theorem C3_quantity_cap_after_qualify_witness :
    executeTrade wBroker wCfg 0 wState "MSFT" "SELL" 1001 (some "MKT") =
      (false, wState, [BrokerCall.qualifyContract "MSFT"]) :=
  C3_quantity_cap_after_qualify wBroker wCfg 0 wState "MSFT" "SELL" 1001 (some "MKT")
    (by decide) (by decide)

/-! ## C2 — session decision policy -/

/-- The regular US session boundaries (04:00, 09:30, 16:00, 20:00) in
minutes since midnight, used as a concrete configuration. -/
def wHours : MarketHoursCfg :=
  { pre_market_start := 240
    market_open := 570
    market_close := 960
    post_market_end := 1200 }

/-- Session flags with both extended-hours gates enabled. -/
def wSess : SessionMgrCfg := { enable_pre_market := true, enable_post_market := true }

/-- Session flags with pre-market trading disabled. -/
def wSessNoPre : SessionMgrCfg := { enable_pre_market := false, enable_post_market := true }

/-- Claim C2 counterexample: at a PRE-market instant (Tuesday 05:00) with
`allow_pre = false` the decision is `(false, none)` — the code nulls the
recommended order type whenever `can_trade` is false — not the claimed
`(false, LIMIT)`. -/
theorem C2_pre_disabled_counterexample :
    getCurrentSession wHours 1 300 = MarketSession.pre_market ∧
    getTradingDecision wHours wSessNoPre 1 300 = (false, none) ∧
    getTradingDecision wHours wSessNoPre 1 300 ≠ (wSessNoPre.enable_pre_market, some "LMT") := by
  decide

/-- Claim C2 as amended: REGULAR gives (true, MARKET); PRE gives
(allow_pre, LIMIT) when pre-market is enabled and (false, none) when it is
disabled; POST symmetrically; CLOSED gives (false, none).  The order type
is `none` whenever the instant is not tradable. -/
theorem C2_trading_decision_policy (mh : MarketHoursCfg) (cfg : SessionMgrCfg)
    (weekday t : Nat) :
    (getCurrentSession mh weekday t = MarketSession.market →
      getTradingDecision mh cfg weekday t = (true, some "MKT")) ∧
    (getCurrentSession mh weekday t = MarketSession.pre_market →
      getTradingDecision mh cfg weekday t =
        (cfg.enable_pre_market, if cfg.enable_pre_market then some "LMT" else none)) ∧
    (getCurrentSession mh weekday t = MarketSession.post_market →
      getTradingDecision mh cfg weekday t =
        (cfg.enable_post_market, if cfg.enable_post_market then some "LMT" else none)) ∧
    (getCurrentSession mh weekday t = MarketSession.closed →
      getTradingDecision mh cfg weekday t = (false, none)) := by
  refine ⟨fun h => ?_, fun h => ?_, fun h => ?_, fun h => ?_⟩ <;>
    simp only [getTradingDecision, canTradeNow, getOrderType, h] <;> rfl

/-- Witness for the amended C2: Tuesday 10:00 is REGULAR and yields
(true, MKT). -/
theorem C2_trading_decision_policy_witness :
    getTradingDecision wHours wSess 1 600 = (true, some "MKT") :=
  (C2_trading_decision_policy wHours wSess 1 600).1 (by decide)

/-! ## C7 — session classification by half-open intervals -/

/-- Claim C7: with ordered boundaries, a weekend instant is CLOSED, and a
weekday instant is PRE on [pre_start, open), REGULAR on [open, close),
POST on [close, post_end) and CLOSED elsewhere; the half-open lower bounds
put each boundary instant in the later session. -/
theorem C7_session_intervals (mh : MarketHoursCfg)
    (h1 : mh.pre_market_start < mh.market_open)
    (h2 : mh.market_open < mh.market_close)
    (h3 : mh.market_close < mh.post_market_end)
    (weekday t : Nat) :
    (5 ≤ weekday → getCurrentSession mh weekday t = MarketSession.closed) ∧
    (weekday < 5 →
      ((getCurrentSession mh weekday t = MarketSession.pre_market) ↔
        (mh.pre_market_start ≤ t ∧ t < mh.market_open)) ∧
      ((getCurrentSession mh weekday t = MarketSession.market) ↔
        (mh.market_open ≤ t ∧ t < mh.market_close)) ∧
      ((getCurrentSession mh weekday t = MarketSession.post_market) ↔
        (mh.market_close ≤ t ∧ t < mh.post_market_end)) ∧
      ((getCurrentSession mh weekday t = MarketSession.closed) ↔
        (t < mh.pre_market_start ∨ mh.post_market_end ≤ t))) := by
  unfold getCurrentSession
  constructor
  · intro h
    rw [if_pos h]
  · intro h
    rw [if_neg (by omega)]
    split_ifs with ha hb hc <;> refine ⟨?_, ?_, ?_, ?_⟩ <;>
      constructor <;> intro hx <;> first | omega | simp_all

/-- Witness for C7: Tuesday 09:30 (the open boundary) is REGULAR. -/
theorem C7_session_intervals_witness :
    getCurrentSession wHours 1 570 = MarketSession.market :=
  ((C7_session_intervals wHours (by decide) (by decide) (by decide) 1 570).2
    (by omega)).2.1.mpr (by constructor <;> decide)

/-! ## C8 — quote preference order -/

/-- Claim C8: the reference price is the consolidated market price when
positive, else the bid/ask midpoint when both are positive, else the last
trade when positive, else no price is returned. -/
theorem C8_quote_preference (t : Ticker) :
    (posQ t.marketPrice = true → getMarketPrice t = t.marketPrice) ∧
    (posQ t.marketPrice = false → posQ t.bid = true → posQ t.ask = true →
      getMarketPrice t = some ((t.bid.getD 0 + t.ask.getD 0) / 2)) ∧
    (posQ t.marketPrice = false → (posQ t.bid && posQ t.ask) = false → posQ t.last = true →
      getMarketPrice t = t.last) ∧
    (posQ t.marketPrice = false → (posQ t.bid && posQ t.ask) = false → posQ t.last = false →
      getMarketPrice t = none) := by
  refine ⟨fun h => ?_, fun h1 h2 h3 => ?_, fun h1 h2 h3 => ?_, fun h1 h2 h3 => ?_⟩ <;>
    simp [getMarketPrice, *]

/-- A ticker with no consolidated price but a positive bid/ask pair. -/
def wTicker : Ticker := { marketPrice := none, bid := some 10, ask := some 11, last := some 9 }

/-- Witness for C8: with bid 10 and ask 11 and no consolidated price, the
returned reference price is the midpoint. -/
theorem C8_quote_preference_witness :
    getMarketPrice wTicker = some ((wTicker.bid.getD 0 + wTicker.ask.getD 0) / 2) :=
  (C8_quote_preference wTicker).2.1 (by rfl) (by norm_num [posQ, wTicker]) (by norm_num [posQ, wTicker])

/-! ## C4 — what the sweep does with exhausted records -/

/-- A pending order whose resubmission count has reached the default cap
and whose idle timeout has long elapsed. -/
def wPendingExhausted : PendingOrder :=
  { trade_id := "17"
    symbol := "MSFT"
    action := "SELL"
    quantity := 50
    original_price := some 300
    submitted_time := 0
    resubmission_count := 3
    last_resubmission := some 10 }

/-- Claim C4 counterexample: a timed-out record at the resubmission cap
(count 3 = max 3, idle for 90 minutes against a 5 minute timeout) is NOT
removed by the sweep: `check_and_resubmit_orders` has no abandonment
branch, so the record is still tracked afterwards. -/
theorem C4_abandon_counterexample :
    wCfg.max_resubmissions ≤ wPendingExhausted.resubmission_count ∧
    wCfg.limit_order_timeout_minutes ≤ (100 : Int) - 10 ∧
    checkAndResubmitOrders wBroker wCfg 100 [("17", wPendingExhausted)] =
      [("17", wPendingExhausted)] :=
  ⟨by decide, by decide, rfl⟩

/-- Claim C4 as amended: the sweep skips records whose resubmission count
has reached the cap — it neither resubmits nor removes them; on a pending
set consisting only of such records the sweep is the identity (removal of
an exhausted record happens only through the fill/cancel/reject
callbacks). -/
theorem C4_exhausted_records_skipped (b : Broker) (cfg : EngineConfig) (now : Int)
    (pending : List (String × PendingOrder))
    (hall : ∀ kv ∈ pending, cfg.max_resubmissions ≤ kv.2.resubmission_count) :
    checkAndResubmitOrders b cfg now pending = pending := by
  unfold checkAndResubmitOrders
  have hfil : (pending.map Prod.snd).filter
      (eligibleForResubmission cfg.max_resubmissions cfg.limit_order_timeout_minutes now) = [] := by
    rw [List.filter_eq_nil_iff]
    intro p hp
    rcases List.mem_map.mp hp with ⟨kv, hkv, rfl⟩
    have hcap := hall kv hkv
    simp only [eligibleForResubmission, Bool.and_eq_true, decide_eq_true_eq, not_and]
    intro _
    omega
  rw [hfil]
  rfl

/-- Witness for the amended C4: the exhausted MSFT record survives a sweep
untouched. -/
theorem C4_exhausted_records_skipped_witness :
    checkAndResubmitOrders wBroker wCfg 100 [("17", wPendingExhausted)] =
      [("17", wPendingExhausted)] :=
  C4_exhausted_records_skipped wBroker wCfg 100 [("17", wPendingExhausted)] (by decide)

/-! ## C5 — resubmission cap on orders per intent -/

theorem resubmitOrderRecord_placed_count (b : Broker) (now : Int) (p : PendingOrder)
    (h : (resubmitOrderRecord b now p).2.isSome = true) :
    (resubmitOrderRecord b now p).1.resubmission_count = p.resubmission_count + 1 := by
  unfold resubmitOrderRecord at h ⊢
  by_cases hq : b.qualify p.symbol = false
  · rw [if_pos hq] at h
    simp at h
  · rw [if_neg hq] at h ⊢
    rcases hp : b.price with _ | mp
    · rw [hp] at h
      simp at h
    · rcases hpl : b.placeId with _ | nid
      · rw [hp, hpl] at h
        simp at h
      · rfl

theorem resubmitOrderRecord_failed_id (b : Broker) (now : Int) (p : PendingOrder)
    (h : (resubmitOrderRecord b now p).2.isSome = false) :
    (resubmitOrderRecord b now p).1 = p := by
  unfold resubmitOrderRecord at h ⊢
  by_cases hq : b.qualify p.symbol = false
  · rw [if_pos hq]
  · rw [if_neg hq] at h ⊢
    rcases hp : b.price with _ | mp
    · rfl
    · rcases hpl : b.placeId with _ | nid
      · rfl
      · rw [hp, hpl] at h
        simp at h

/-- Claim C5: along any lifecycle of one originating intent — the initial
tracked limit placement followed by sweep-driven resubmissions — the total
number of broker orders placed equals `resubmission_count + 1` and never
exceeds `max_resubmissions + 1`: the sweep attempts a replace only while
`resubmission_count < max_resubmissions`, and the count is incremented
exactly on each successful replace. -/
theorem C5_resubmission_cap (cfg : EngineConfig) (p : PendingOrder) (n : Nat)
    (h : IntentReach cfg p n) :
    n = p.resubmission_count + 1 ∧ n ≤ cfg.max_resubmissions + 1 := by
  induction h with
  | track orderId symbol action quantity limit_price now =>
    exact ⟨rfl, by omega⟩
  | resubmitPlaced p n b now hreach helig hplaced ih =>
    have hc := resubmitOrderRecord_placed_count b now p hplaced
    have hlt : p.resubmission_count < cfg.max_resubmissions := by
      simp only [eligibleForResubmission, Bool.and_eq_true, decide_eq_true_eq] at helig
      exact helig.2
    rw [hc]
    omega
  | resubmitFailed p n b now hreach helig hfail ih =>
    rw [resubmitOrderRecord_failed_id b now p hfail]
    exact ih

/-- Witness for C5: the freshly tracked record accounts for exactly one
placed order, within the cap. -/
theorem C5_resubmission_cap_witness :
    (1 : Nat) = (trackPendingOrder 1 "MSFT" "SELL" 50 150 0).resubmission_count + 1 ∧
    (1 : Nat) ≤ wCfg.max_resubmissions + 1 :=
  C5_resubmission_cap wCfg (trackPendingOrder 1 "MSFT" "SELL" 50 150 0) 1
    (IntentReach.track 1 "MSFT" "SELL" 50 150 0)

/-! ## C6 — limit-price buffer and rounding -/

theorem roundHalfEven_close (x : ℚ) : |(roundHalfEven x : ℚ) - x| ≤ 1/2 := by
  unfold roundHalfEven
  have hfl : (⌊x⌋ : ℚ) ≤ x := Int.floor_le x
  have hfu : x < (⌊x⌋ : ℚ) + 1 := Int.lt_floor_add_one x
  split_ifs with h1 h2 h3 <;> rw [abs_le] <;> constructor <;> push_cast <;> linarith

theorem round2_close (x : ℚ) : |round2 x - x| ≤ 1/200 := by
  unfold round2
  have h := roundHalfEven_close (x * 100)
  rw [abs_le] at h ⊢
  constructor
  · linarith [h.1]
  · linarith [h.2]

/-- Claim C6 counterexample: at the positive quote q = 2.002 the BUY-side
limit is round(2.002 × 1.001, 2) = 2.00 < q, refuting "BUY-side limit ≥ q"
(and with it the claimed 0.001 + ulp relative bound as a consequence of
pure buffering): rounding to two decimals can move the limit back below
the quote. -/
theorem C6_buy_limit_below_quote_counterexample :
    (0 : ℚ) < 1001/500 ∧ executeLimitPrice "BUY" (1001/500) < 1001/500 := by
  constructor
  · norm_num
  · have harg : (1001/500 : ℚ) * (1 + buffer) * 100 = 1002001/5000 := by
      unfold buffer
      norm_num
    have hf : (⌊(1002001/5000 : ℚ)⌋ : ℤ) = 200 := by
      rw [Int.floor_eq_iff]
      constructor <;> norm_num
    have hfrac : (1002001/5000 : ℚ) - ((200 : ℤ) : ℚ) < 1/2 := by norm_num
    unfold executeLimitPrice
    rw [if_pos rfl]
    unfold round2 roundHalfEven
    rw [harg, hf, if_pos hfrac]
    norm_num

/-- Claim C6 as amended: the emitted limit equals
round2(q × (1 + 0.001)) on the BUY side and round2(q × (1 − 0.001)) on the
SELL side, with the identical expression on initial placement and on every
resubmission; the rounding grain weakens the one-sided bounds to half a
cent: BUY-side limit ≥ q − 0.005, SELL-side limit ≤ q + 0.005, and
|limit − q| ≤ 0.001·q + 0.005. -/
theorem C6_limit_price_buffer (q : ℚ) (hq : 0 < q) :
    (∀ a : String, resubmitLimitPrice a q = executeLimitPrice a q) ∧
    executeLimitPrice "BUY" q = round2 (q * (1 + buffer)) ∧
    executeLimitPrice "SELL" q = round2 (q * (1 - buffer)) ∧
    q - 1/200 ≤ executeLimitPrice "BUY" q ∧
    executeLimitPrice "SELL" q ≤ q + 1/200 ∧
    |executeLimitPrice "BUY" q - q| ≤ q * buffer + 1/200 ∧
    |executeLimitPrice "SELL" q - q| ≤ q * buffer + 1/200 := by
  have hbuy : executeLimitPrice "BUY" q = round2 (q * (1 + buffer)) := by
    unfold executeLimitPrice
    rw [if_pos rfl]
  have hsell : executeLimitPrice "SELL" q = round2 (q * (1 - buffer)) := by
    unfold executeLimitPrice
    rw [if_neg (by decide)]
  have hb := round2_close (q * (1 + buffer))
  have hs := round2_close (q * (1 - buffer))
  rw [abs_le] at hb hs
  have hqb : 0 ≤ q * buffer := by
    unfold buffer
    positivity
  have hexp1 : q * (1 + buffer) = q + q * buffer := by ring
  have hexp2 : q * (1 - buffer) = q - q * buffer := by ring
  refine ⟨fun a => rfl, hbuy, hsell, ?_, ?_, ?_, ?_⟩
  · rw [hbuy]
    linarith [hb.1]
  · rw [hsell]
    linarith [hs.2]
  · rw [hbuy, abs_le]
    constructor <;> linarith [hb.1, hb.2]
  · rw [hsell, abs_le]
    constructor <;> linarith [hs.1, hs.2]

/-- Witness for the amended C6 at q = 150: both sides agree between
placement and resubmission and the limits stay within the buffered band. -/
theorem C6_limit_price_buffer_witness :
    resubmitLimitPrice "BUY" 150 = executeLimitPrice "BUY" 150 ∧
    (150 : ℚ) - 1/200 ≤ executeLimitPrice "BUY" 150 ∧
    executeLimitPrice "SELL" 150 ≤ (150 : ℚ) + 1/200 :=
  ⟨(C6_limit_price_buffer 150 (by norm_num)).1 "BUY",
   (C6_limit_price_buffer 150 (by norm_num)).2.2.2.1,
   (C6_limit_price_buffer 150 (by norm_num)).2.2.2.2.1⟩

/-! ## C9 — HTTP status for invalid alert fields -/

/-- An authenticated JSON alert carrying an unknown action. -/
def wAlertUnknownAction : AlertData :=
  { action := some "hold"
    symbol := some "AAPL"
    quantity := some (some 100)
    price := none
    message := none }

/-- An authenticated JSON alert missing the symbol field. -/
def wAlertMissingSymbol : AlertData :=
  { action := some "buy"
    symbol := none
    quantity := some (some 100)
    price := none
    message := none }

/-- A well-formed JSON POST from an allowed address carrying the
unknown-action alert. -/
def wRequestUnknownAction : WebhookRequest :=
  { remote_addr := "10.0.0.1"
    is_json := true
    data := some wAlertUnknownAction
    data_truthy := true
    x_signature := none }

/-- The same request shape carrying the missing-symbol alert. -/
def wRequestMissingSymbol : WebhookRequest :=
  { remote_addr := "10.0.0.1"
    is_json := true
    data := some wAlertMissingSymbol
    data_truthy := true
    x_signature := none }

/-- Claim C9 counterexample: an authenticated request whose JSON carries
the unknown action "hold" makes `parse_alert` raise, and the route's
callback-exception branch answers HTTP 500 — a 5xx status — not the
claimed 400. -/
theorem C9_unknown_action_counterexample :
    parseAlert wAlertUnknownAction = Except.error "Invalid or missing action" ∧
    webhookRoute "" [] (fun _ => false) (some parseAlertCallback) wRequestUnknownAction = 500 ∧
    (500 : Nat) ≠ 400 := by
  refine ⟨rfl, rfl, by decide⟩

/-- Claim C9 as amended: for an authenticated request (allowed IP, JSON
content, non-empty body, signature check passed or no secret configured)
whose payload `parse_alert` rejects — unknown action, missing or invalid
`action`/`symbol`/`quantity` — the route answers 500 through its
callback-exception branch; the 400 statuses are reserved for non-JSON
content and empty bodies. -/
theorem C9_validation_errors_surface_as_500 (secret : String)
    (allowed_ips : List String) (hmacOk : String → Bool) (req : WebhookRequest)
    (d : AlertData) (e : String)
    (hip : ((!allowed_ips.isEmpty) && (!(allowed_ips.contains req.remote_addr))) = false)
    (hjson : req.is_json = true)
    (hdata : req.data = some d)
    (htruthy : req.data_truthy = true)
    (hauth : ((!(secret == "")) && (!(verifySignature hmacOk req.x_signature))) = false)
    (hparse : parseAlert d = Except.error e) :
    webhookRoute secret allowed_ips hmacOk (some parseAlertCallback) req = 500 := by
  unfold webhookRoute
  rw [hip, hdata]
  simp only [hjson, htruthy, hauth, Bool.not_true, Bool.false_eq_true, if_false, reduceIte]
  unfold parseAlertCallback
  rw [hparse]

/-- Witness for the amended C9: the missing-symbol request is answered
with 500. -/
theorem C9_validation_errors_surface_as_500_witness :
    webhookRoute "" [] (fun _ => false) (some parseAlertCallback) wRequestMissingSymbol = 500 :=
  C9_validation_errors_surface_as_500 "" [] (fun _ => false) wRequestMissingSymbol
    wAlertMissingSymbol "Missing symbol" (by rfl) (by rfl) (by rfl) (by rfl) (by rfl) (by rfl)

/-! ## C10 — division by zero in the average-fill-time update -/

/-- Claim C10 is refuted by the code: on the very first matched fill the
`filled_orders` counter is still 0 when `_update_avg_fill_time` reads it
as the divisor — `record_order_filled` increments the counter only after
the update — so the update divides by zero (`none` models the escaping
`ZeroDivisionError`). -/
theorem C10_first_fill_divides_by_zero :
    (recordOrderPlaced emptyMonitor "1" "AAPL" "BUY" 100 "MKT" none 0).order_stats.filled_orders
      = 0 ∧
    recordOrderFilled (recordOrderPlaced emptyMonitor "1" "AAPL" "BUY" 100 "MKT" none 0)
      "1" 150 10 = none := by
  exact ⟨rfl, rfl⟩
